import Mathlib

/-!
# Verification of `app.py` (parcel_size_visualizer)

Shallow embedding of the parcel-variance viewer: the colour pipeline
(pandas min/max, matplotlib `LogNorm`, the `RdYlGn` lookup table and
`get_color`), the streamlit session-state machine (initialisation,
row-selection reconciliation, logout), and the load pipeline (CRS guard
and the descending `sort_values` step).  Python floats are modelled as
`Option ℚ` where `none` stands for NaN and finite floats are exact
rationals; all float computations relevant to the claims are either
exact in this model or are shown to round identically.
-/

namespace ParcelApp

/-- A float value of the `variance_acres` column: `none` models NaN,
`some q` a finite float. -/
abbrev Val := Option ℚ

instance {ε α : Type} [DecidableEq ε] [DecidableEq α] :
    DecidableEq (Except ε α) := fun a b =>
  match a, b with
  | .error e1, .error e2 =>
    if h : e1 = e2 then .isTrue (h ▸ rfl)
    else .isFalse (fun hh => h (Except.error.inj hh))
  | .ok x, .ok y =>
    if h : x = y then .isTrue (h ▸ rfl)
    else .isFalse (fun hh => h (Except.ok.inj hh))
  | .error _, .ok _ => .isFalse (fun hh => Except.noConfusion hh)
  | .ok _, .error _ => .isFalse (fun hh => Except.noConfusion hh)

/-- Recursive minimum of a list of rationals, `none` on the empty list. -/
def listMin : List ℚ → Option ℚ
  | [] => none
  | x :: xs =>
    some (match listMin xs with
          | none => x
          | some m => min x m)

/-- Recursive maximum of a list of rationals, `none` on the empty list. -/
def listMax : List ℚ → Option ℚ
  | [] => none
  | x :: xs =>
    some (match listMax xs with
          | none => x
          | some m => max x m)

/-- `pandas.Series.min()` with the default `skipna=True`: NaN entries are
dropped, the minimum is taken over the remaining finite values, and an
all-NaN or empty column yields NaN (`none`). -/
def seriesMin (column : List Val) : Val := listMin (column.filterMap id)

/-- `pandas.Series.max()` with the default `skipna=True`. -/
def seriesMax (column : List Val) : Val := listMax (column.filterMap id)

/-- Modelled from the spec: the minimum that §4.3 prescribes for the
logarithmic mode, taken over only the finite positive values of the
attribute ("values ≤ 0 or NaN are excluded from min/max computation").
Declared for comparison with `seriesMin`, which is what line 109 of
`app.py` actually computes. -/
def specLogMin (column : List Val) : Val :=
  listMin ((column.filterMap id).filter (fun q => decide (0 < q)))

/-- Modelled from the spec: the positive-only maximum, see `specLogMin`. -/
def specLogMax (column : List Val) : Val :=
  listMax ((column.filterMap id).filter (fun q => decide (0 < q)))

/-- An 8-bit RGB triple; the model of a `#rrggbb` string produced by
`matplotlib.colors.to_hex` (which rounds each float channel to a byte). -/
abbrev Color := ℕ × ℕ × ℕ

/-- `"#cccccc"`, the fixed neutral colour `get_color` returns for
non-positive or NaN values. -/
def neutralColor : Color := (204, 204, 204)

/-- The 11 ColorBrewer control colours of matplotlib's `RdYlGn` colormap
(`_RdYlGn_data` in `matplotlib/_cm.py`, whose float entries are exactly
these bytes divided by 255). -/
def rdylgnData : List Color :=
  [(165, 0, 38), (215, 48, 39), (244, 109, 67), (253, 174, 97),
   (254, 224, 139), (255, 255, 191), (217, 239, 139), (166, 217, 106),
   (102, 189, 99), (26, 152, 80), (0, 104, 55)]

/-- Red channel bytes of the `RdYlGn` control colours. -/
def rdylgnRed : List ℕ := rdylgnData.map (fun c => c.1)

/-- Green channel bytes of the `RdYlGn` control colours. -/
def rdylgnGreen : List ℕ := rdylgnData.map (fun c => c.2.1)

/-- Blue channel bytes of the `RdYlGn` control colours. -/
def rdylgnBlue : List ℕ := rdylgnData.map (fun c => c.2.2)

/-- One channel of entry `i` (0 ≤ i ≤ 255) of the 256-entry lookup table
matplotlib builds for `RdYlGn` (`_create_lookup_table`), already rounded
to a byte as `matplotlib.colors.to_hex` rounds.  The float LUT entry is
the linear interpolation of the 11 control values `b j / 255` over knots
`j * 25.5` evaluated at `i`; with `j = ⌊2i/51⌋` and `f = 2i - 51j` the
exact channel value times 255 is `((51-f)·b j + f·b (j+1)) / 51`, and
since `2·num` is even while `51·(2k+1)` is odd this is never exactly
halfway between two integers, so float rounding (`np.round`, used by
`to_hex`) agrees with `⌊num/51 + 1/2⌋` computed here. -/
def lutChan (bs : List ℕ) (i : ℕ) : ℕ :=
  let j := 2 * i / 51
  let f := 2 * i - 51 * j
  let num := (51 - f) * bs.getD j 0 + f * bs.getD (j + 1) 0
  (2 * num + 51) / 102

/-- Entry `i` of the `RdYlGn` lookup table, as the rounded byte triple
`to_hex` would produce from it. -/
def lutColor (i : ℕ) : Color :=
  (lutChan rdylgnRed i, lutChan rdylgnGreen i, lutChan rdylgnBlue i)

/-- One channel of entry `i` of the float lookup table (a value in
`[0,1]`), exact: `((51-f)·b j + f·b (j+1)) / (51·255)`. -/
def lutChanQ (bs : List ℕ) (i : ℕ) : ℚ :=
  let j := 2 * i / 51
  let f := 2 * i - 51 * j
  (((51 - f) * bs.getD j 0 + f * bs.getD (j + 1) 0 : ℕ) : ℚ) / (51 * 255)

/-- `matplotlib.colors.Colormap.__call__` on a float scalar `x`: the LUT
index is `int(x * 256)` (truncation toward zero, exact for `x ≥ 0`),
`x*256 = 256` is mapped to 255, larger values to the over colour and
negative values to the under colour, which for `RdYlGn` default to the
last and first LUT entries. -/
def colormapIndex (x : ℚ) : ℕ :=
  if x < 0 then 0
  else min (((x * 256).num / ((x * 256).den : ℤ)).toNat) 255

/-- The colormap as a map from a float position to the rounded byte
triple of the selected LUT entry. -/
def colormapAt (x : ℚ) : Color := lutColor (colormapIndex x)

/-- `matplotlib.colors.LogNorm(vmin=vmin, vmax=vmax)` as built on line 110
of `app.py`: it records the fitted bounds (possibly NaN); nothing is
checked at construction time. -/
structure LogNorm where
  vmin : Val
  vmax : Val
deriving DecidableEq

/-- Outcome of `LogNorm.__call__` on a positive finite scalar, before the
colormap lookup. -/
inductive NormResult
  | err (msg : String)
  | zero
  | logPos
deriving DecidableEq

/-- `LogNorm.__call__` (matplotlib ≥ 3.5, `make_norm_from_scale`): raise
`"vmin must be less or equal to vmax"` if `vmin > vmax`; short-circuit to
position `0.0` if `vmin == vmax`; otherwise transform through `log` and
raise `"Invalid vmin or vmax"` when `log(vmin)` or `log(vmax)` is not
finite, i.e. when either bound is NaN or ≤ 0.  Comparisons against NaN
are false, so NaN bounds fall through to the finiteness check.  In the
remaining case the result is the finite position
`(log v - log vmin)/(log vmax - log vmin)`, which is transcendental and
therefore kept symbolic as `logPos`. -/
def LogNorm.classify (n : LogNorm) : NormResult :=
  match n.vmin, n.vmax with
  | some a, some b =>
    if b < a then .err "vmin must be less or equal to vmax"
    else if a = b then .zero
    else if a ≤ 0 ∨ b ≤ 0 then .err "Invalid vmin or vmax"
    else .logPos
  | _, _ => .err "Invalid vmin or vmax"

/-- `get_color` (lines 114–119 of `app.py`): non-positive or NaN values
short-circuit to the neutral colour `"#cccccc"`; otherwise the value goes
through `colormap(norm(val))` and `to_hex`.  In the generic `logPos`
branch the chosen LUT index depends on the transcendental log position;
since matplotlib clamps every float position into its 256-entry table,
that index is abstracted as a parameter `idx : ℚ → Fin 256` (no claim
depends on which entry the log position selects). -/
def get_color (idx : ℚ → Fin 256) (n : LogNorm) (val : Val) :
    Except String Color :=
  match val with
  | none => .ok neutralColor
  | some v =>
    if v ≤ 0 then .ok neutralColor
    else
      match n.classify with
      | .err m => .error m
      | .zero => .ok (lutColor 0)
      | .logPos => .ok (lutColor (idx v))

/-- Lines 109–110 of `app.py`:
`vmin, vmax = gdf["variance_acres"].min(), gdf["variance_acres"].max()`
followed by `norm = colors.LogNorm(vmin=vmin, vmax=vmax)`. -/
def fittedNorm (column : List Val) : LogNorm :=
  { vmin := seriesMin column, vmax := seriesMax column }

/-- A concrete instance of the abstracted LUT-index parameter, used to
instantiate closed statements. -/
def idx0 : ℚ → Fin 256 := fun _ => 0

/-- One row of the GeoDataFrame.  `centroid_y`/`centroid_x` are the
latitude/longitude of `geometry.centroid`, the cached representative
point (its area-weighted computation lives in shapely and no claim
depends on the formula, only on the coordinates); `geometry` is the
polygon's coordinate sequence, carried so that the reprojection step can
be stated. -/
structure ParcelRecord where
  parcel_id : ℕ
  variance_acres : Val
  centroid_y : ℚ
  centroid_x : ℚ
  geometry : List (ℚ × ℚ)
deriving DecidableEq

instance : Inhabited ParcelRecord := ⟨⟨0, none, 0, 0, []⟩⟩

/-- The `st.session_state` keys touched by `app.py`; `none` models an
absent key. -/
structure SessionState where
  password_correct : Option Bool
  map_center : Option (ℚ × ℚ)
  map_zoom : Option ℕ
deriving DecidableEq

/-- `pandas.Series.mean()` over a NaN-free numeric column (the centroid
coordinate columns contain no NaN). -/
def seriesMean (xs : List ℚ) : ℚ := xs.sum / (xs.length : ℚ)

/-- Lines 85–90 of `main_app`: if the key `map_center` is absent, set
`map_center` to `[avg_lat, avg_lon]` — the equal-weight means of the
records' centroid latitudes and longitudes — and `map_zoom` to 13;
otherwise the session state is left as it is. -/
def initMapState (gdf : List ParcelRecord) (s : SessionState) : SessionState :=
  match s.map_center with
  | some _ => s
  | none =>
    { s with
      map_center := some (seriesMean (gdf.map (fun p => p.centroid_y)),
                          seriesMean (gdf.map (fun p => p.centroid_x))),
      map_zoom := some 13 }

/-- Lines 181–192 of `main_app`, the selection-event handler: look up row
`i` (`gdf.iloc[idx]`, raising `IndexError` out of range), take the
record's centroid as `[target_lat, target_lon]`, and only if the current
`map_center` differs from it, write the new centre, set `map_zoom` to 18
and call `st.rerun()`.  The returned boolean reports whether `st.rerun()`
fired.  Reading `st.session_state.map_center` with the key absent would
raise, which the `AttributeError` branch models (unreachable after
`initMapState`). -/
def selectionStep (gdf : List ParcelRecord) (s : SessionState) (i : ℕ) :
    Except String (SessionState × Bool) :=
  match gdf[i]? with
  | none => .error "IndexError"
  | some p =>
    match s.map_center with
    | none => .error "AttributeError"
    | some c =>
      if c ≠ (p.centroid_y, p.centroid_x) then
        .ok ({ s with map_center := some (p.centroid_y, p.centroid_x),
                      map_zoom := some 18 }, true)
      else
        .ok (s, false)

/-- Lines 198–200 of `main_app`, the Logout button handler: it sets
`st.session_state["password_correct"] = False` and calls `st.rerun()`;
no other session-state key is touched. -/
def logoutStep (s : SessionState) : SessionState :=
  { s with password_correct := some false }

/-- A parsed GeoDataFrame as `load_data` sees it right after
`gpd.read_file`: its coordinate reference system and its records. -/
structure RawGeoDataFrame where
  crs : String
  records : List ParcelRecord
deriving DecidableEq

/-- Lines 72–73 of `load_data`:
`if gdf.crs != "EPSG:4326": gdf = gdf.to_crs(epsg=4326)`.  The transform
`to_crs` applies to each record is external (pyproj), so the step is
parameterised by it; when the parsed CRS already is `EPSG:4326` the
branch is not taken and the frame is returned as is. -/
def reprojectStep (toWgs84 : ParcelRecord → ParcelRecord)
    (gdf : RawGeoDataFrame) : RawGeoDataFrame :=
  if gdf.crs ≠ "EPSG:4326" then
    { crs := "EPSG:4326", records := gdf.records.map toWgs84 }
  else gdf

/-!
### numpy argsort, `kind='quicksort'`

`DataFrame.sort_values` with a single `by` column builds its row indexer
with `pandas.core.sorting.nargsort`; `np.argsort(kind='quicksort')` is
introsort, `aquicksort_` from numpy's `npysort/quicksort.c.src` (the
portable scalar path): median-of-3 partition down to segments of at most
`SMALL_QUICKSORT = 15` slots, a final insertion sort per small segment,
and a depth-limited fallback to `aheapsort_`.  The index array `tosort`
is modelled as a `List ℕ`, pointer arithmetic as slot indices, and each
loop carries explicit fuel; every loop of the algorithm is bounded by
the array size (the pivot parked at `pr-1` and the `≤`-pivot element at
`pl` act as scan sentinels), and the fuel passed in `argsortQuick`
exceeds those bounds.  The column is NaN-free here (pandas masks NaN out
before argsorting), so the float comparison `LT` is plain `<`. -/

/-- `v[ts[k]]`: the comparison key of slot `k` of the index array. -/
def keyAt (v : List ℚ) (ts : List ℕ) (k : ℕ) : ℚ := v.getD (ts.getD k 0) 0

/-- Swap slots `i` and `j` of the index array (`INTP_SWAP`). -/
def tsSwap (ts : List ℕ) (i j : ℕ) : List ℕ :=
  let x := ts.getD i 0
  let y := ts.getD j 0
  (ts.set i y).set j x

/-- `do ++pi; while (LT(v[*pi], vp));` — the first slot at or above
`start` whose key is not `< vp`. -/
def scanUp (v : List ℚ) (ts : List ℕ) (vp : ℚ) : ℕ → ℕ → ℕ
  | start, 0 => start
  | start, fuel + 1 =>
    if keyAt v ts start < vp then scanUp v ts vp (start + 1) fuel else start

/-- `do --pj; while (LT(vp, v[*pj]));` — the first slot at or below
`start` whose key is not `> vp`. -/
def scanDown (v : List ℚ) (ts : List ℕ) (vp : ℚ) : ℕ → ℕ → ℕ
  | start, 0 => start
  | start, fuel + 1 =>
    if vp < keyAt v ts start then scanDown v ts vp (start - 1) fuel else start

/-- The exchange loop of the partition: scan up from `pi+1`, down from
`pj-1`, stop when the scans cross, otherwise swap and continue.  Returns
the final index array and the crossing slot `pi`. -/
def partitionLoop (v : List ℚ) (vp : ℚ) :
    List ℕ → ℕ → ℕ → ℕ → List ℕ × ℕ
  | ts, pi, _, 0 => (ts, pi)
  | ts, pi, pj, fuel + 1 =>
    let pi1 := scanUp v ts vp (pi + 1) (ts.length + 1)
    let pj1 := scanDown v ts vp (pj - 1) (ts.length + 1)
    if pi1 ≥ pj1 then (ts, pi1)
    else partitionLoop v vp (tsSwap ts pi1 pj1) pi1 pj1 fuel

/-- One `quicksort partition` block of `aquicksort_` on the segment
`[pl, pr]`: median-of-3 of the keys at `pl`, `pm`, `pr` (with index
swaps), pivot parked at `pr-1`, exchange loop, and the final swap that
places the pivot at the crossing slot `pi`. -/
def partitionStep (v : List ℚ) (ts : List ℕ) (pl pr : ℕ) : List ℕ × ℕ :=
  let pm := pl + (pr - pl) / 2
  let ts := if keyAt v ts pm < keyAt v ts pl then tsSwap ts pm pl else ts
  let ts := if keyAt v ts pr < keyAt v ts pm then tsSwap ts pr pm else ts
  let ts := if keyAt v ts pm < keyAt v ts pl then tsSwap ts pm pl else ts
  let vp := keyAt v ts pm
  let ts := tsSwap ts pm (pr - 1)
  let r := partitionLoop v vp ts pl (pr - 1) (ts.length + 1)
  (tsSwap r.1 r.2 (pr - 1), r.2)

/-- The shifting inner `while` of the insertion sort: move keys `> vp`
one slot right, going down but not past `pl`; returns the index array
and the slot where `vi` belongs. -/
def insertInner (v : List ℚ) (vp : ℚ) (pl : ℕ) :
    List ℕ → ℕ → ℕ → List ℕ × ℕ
  | ts, pj, 0 => (ts, pj)
  | ts, pj, fuel + 1 =>
    if pl < pj ∧ vp < v.getD (ts.getD (pj - 1) 0) 0 then
      insertInner v vp pl (ts.set pj (ts.getD (pj - 1) 0)) (pj - 1) fuel
    else (ts, pj)

/-- The insertion sort of `aquicksort_` on the segment `[pl, pr]`,
`for (pi = pl + 1; pi <= pr; ++pi)`. -/
def insertionSortSeg (v : List ℚ) (pl pr : ℕ) : List ℕ → ℕ → ℕ → List ℕ
  | ts, _, 0 => ts
  | ts, pi, fuel + 1 =>
    if pi ≤ pr then
      let vi := ts.getD pi 0
      let r := insertInner v (v.getD vi 0) pl ts pi (ts.length + 1)
      insertionSortSeg v pl pr (r.1.set r.2 vi) (pi + 1) fuel
    else ts

/-- `a[k]` of `aheapsort_` called on the segment starting at `pl`:
the heap is one-based, `a = tosort + pl - 1`. -/
def hGet (ts : List ℕ) (pl k : ℕ) : ℕ := ts.getD (pl + k - 1) 0

/-- Write `a[k]` of the one-based heap view. -/
def hSet (ts : List ℕ) (pl k x : ℕ) : List ℕ := ts.set (pl + k - 1) x

/-- The sift-down loop shared by both phases of `aheapsort_`:
`for (i = l, j = l*2; j <= n;)` with the larger-child step and the
`break` when the lifted key is not smaller than the child's. -/
def siftLoop (v : List ℚ) (pl n : ℕ) (tmpKey : ℚ) :
    List ℕ → ℕ → ℕ → ℕ → List ℕ × ℕ
  | ts, i, _, 0 => (ts, i)
  | ts, i, j, fuel + 1 =>
    if j ≤ n then
      let j := if j < n ∧
          v.getD (hGet ts pl j) 0 < v.getD (hGet ts pl (j + 1)) 0 then
        j + 1 else j
      if tmpKey < v.getD (hGet ts pl j) 0 then
        siftLoop v pl n tmpKey (hSet ts pl i (hGet ts pl j)) j (j + j) fuel
      else (ts, i)
    else (ts, i)

/-- Heapify phase of `aheapsort_`: `for (l = n >> 1; l > 0; --l)`. -/
def heapBuild (v : List ℚ) (pl n : ℕ) : ℕ → List ℕ → List ℕ
  | 0, ts => ts
  | l + 1, ts =>
    let tmp := hGet ts pl (l + 1)
    let r := siftLoop v pl n (v.getD tmp 0) ts (l + 1) (l + 1 + (l + 1))
      (ts.length + 1)
    heapBuild v pl n l (hSet r.1 pl r.2 tmp)

/-- Extraction phase of `aheapsort_`: `for (; n > 1;)`, swapping the root
out and sifting the last element down from the root. -/
def heapExtract (v : List ℚ) (pl : ℕ) : ℕ → List ℕ → List ℕ
  | 0, ts => ts
  | 1, ts => ts
  | n + 2, ts =>
    let tmp := hGet ts pl (n + 2)
    let ts := hSet ts pl (n + 2) (hGet ts pl 1)
    let r := siftLoop v pl (n + 1) (v.getD tmp 0) ts 1 2 (ts.length + 1)
    heapExtract v pl (n + 1) (hSet r.1 pl r.2 tmp)

/-- `aheapsort_(vv, tosort + pl, n)`: heapsort of the `n`-slot segment
starting at `pl`. -/
def aheapsortSeg (v : List ℚ) (ts : List ℕ) (pl n : ℕ) : List ℕ :=
  heapExtract v pl n (heapBuild v pl n (n / 2) ts)

/-- The introsort driver of `aquicksort_`.  State: index array, current
segment `[pl, pr]`, remaining partition depth, and the stack of pushed
segments with their saved depths.  Large segments are partitioned (the
larger half pushed, the smaller continued) until the depth budget is
exhausted — then the segment goes to `aheapsort_` — and segments of at
most 15 slots are insertion sorted before popping.  The exact program
point of numpy's depth check has moved between releases; it is checked
here before each partition, which agrees with every release whenever the
budget is not exhausted (as in all evaluations below, where the budget
`2·log2 n` exceeds the partition count). -/
def qsortDriver (v : List ℚ) :
    List ℕ → ℕ → ℕ → ℤ → List (ℕ × ℕ × ℤ) → ℕ → List ℕ
  | ts, _, _, _, _, 0 => ts
  | ts, pl, pr, cdepth, stack, fuel + 1 =>
    if pr - pl > 15 then
      if cdepth < 0 then
        let ts := aheapsortSeg v ts pl (pr - pl + 1)
        match stack with
        | [] => ts
        | (pl1, pr1, cd) :: rest => qsortDriver v ts pl1 pr1 cd rest fuel
      else
        let r := partitionStep v ts pl pr
        let pi := r.2
        if pi - pl < pr - pi then
          qsortDriver v r.1 pl (pi - 1) (cdepth - 1)
            ((pi + 1, pr, cdepth - 1) :: stack) fuel
        else
          qsortDriver v r.1 (pi + 1) pr (cdepth - 1)
            ((pl, pi - 1, cdepth - 1) :: stack) fuel
    else
      let ts := insertionSortSeg v pl pr ts (pl + 1) (ts.length + 1)
      match stack with
      | [] => ts
      | (pl1, pr1, cd) :: rest => qsortDriver v ts pl1 pr1 cd rest fuel

/-- `np.argsort(kind='quicksort')` on a NaN-free float array: start from
the identity index array with depth budget `npy_get_msb(num) * 2`. -/
def argsortQuick (xs : List ℚ) : List ℕ :=
  match xs.length with
  | 0 => []
  | n + 1 =>
    qsortDriver xs (List.range (n + 1)) 0 n (2 * Nat.log2 (n + 1)) []
      (4 * (n + 1) + 64)

/-- `pandas.core.sorting.nargsort(column, kind="quicksort",
ascending=False, na_position="last")`, the indexer `sort_values`
computes for a single `by` column: NaN positions are masked out, the
non-NaN block is reversed, argsorted ascending with numpy, the result
mapped back and reversed, and the NaN positions appended at the end. -/
def nargsortDesc (column : List Val) : List ℕ :=
  let n := column.length
  let nonNanIdx := (List.range n).filter (fun i => (column.getD i none).isSome)
  let nanIdx := (List.range n).filter (fun i => (column.getD i none).isNone)
  let revIdx := nonNanIdx.reverse
  let revVals := revIdx.map (fun i => (column.getD i none).getD 0)
  let order := argsortQuick revVals
  (order.map (fun k => revIdx.getD k 0)).reverse ++ nanIdx

/-- Line 75 of `load_data`:
`gdf.sort_values(by="variance_acres", ascending=False).reset_index(drop=True)` —
the records taken in the order of the `nargsort` indexer. -/
def sortByVarianceDesc (records : List ParcelRecord) : List ParcelRecord :=
  (nargsortDesc (records.map (fun p => p.variance_acres))).map
    (fun i => records.getD i default)

/-- The value a GeoJson `style_function` of `main_app` puts into the
`fillColor` style attribute of a feature. -/
inductive FillValue
  | hexColor (c : Color)
  | rgbaFloats (r g b a : ℚ)
  | raised (msg : String)
deriving DecidableEq

/-- Lines 129–134 of `main_app`, the style of the first `folium.GeoJson`
layer: `fillColor = colormap(feature["properties"]["variance_acres"])` —
the colormap applied directly to the raw attribute value, yielding a
float rgba tuple (not a hex string); a NaN value selects the colormap's
bad colour `(0, 0, 0, 0)`. -/
def layer1FillColor (v : Val) : FillValue :=
  match v with
  | none => .rgbaFloats 0 0 0 0
  | some q =>
    .rgbaFloats (lutChanQ rdylgnRed (colormapIndex q))
      (lutChanQ rdylgnGreen (colormapIndex q))
      (lutChanQ rdylgnBlue (colormapIndex q)) 1

/-- Lines 143–147 of `main_app`, the style of the second `folium.GeoJson`
layer: `fillColor = get_color(feature)`, a hex string, or the exception
`get_color` raises. -/
def layer2FillColor (idx : ℚ → Fin 256) (n : LogNorm) (v : Val) : FillValue :=
  match get_color idx n v with
  | .ok c => .hexColor c
  | .error m => .raised m

/-- A polygon (GeoJson) layer of the folium map: its per-feature fill
rule as a function of the feature's `variance_acres`, and the constant
style attributes. -/
structure GeoJsonLayer where
  fillColorOf : Val → FillValue
  weight : ℚ
  fillOpacity : ℚ

instance : Inhabited GeoJsonLayer := ⟨⟨fun _ => .raised "", 0, 0⟩⟩

/-- Lines 127–161 of `main_app`: the polygon layers added to the folium
map, in the order they are added — the raw-colormap layer (fill opacity
0.3) first, then the `get_color` layer (fill opacity 0.4). -/
def mainAppPolygonLayers (idx : ℚ → Fin 256) (n : LogNorm) :
    List GeoJsonLayer :=
  [{ fillColorOf := layer1FillColor, weight := 1, fillOpacity := 3 / 10 },
   { fillColorOf := layer2FillColor idx n, weight := 1, fillOpacity := 4 / 10 }]

/-! ### Helper lemmas and example data -/

/-- The minimum of a rational list bounds every member from below. -/
theorem listMin_le_of_mem {l : List ℚ} {a : ℚ} (h : a ∈ l) :
    ∃ m, listMin l = some m ∧ m ≤ a := by
  induction l with
  | nil => cases h
  | cons x xs ih =>
    cases hxs : listMin xs with
    | none =>
      rcases List.mem_cons.mp h with rfl | hmem
      · exact ⟨a, by simp [listMin, hxs], le_refl a⟩
      · obtain ⟨m, hm, _⟩ := ih hmem
        rw [hxs] at hm
        cases hm
    | some m =>
      rcases List.mem_cons.mp h with rfl | hmem
      · exact ⟨min a m, by simp [listMin, hxs], min_le_left a m⟩
      · obtain ⟨m2, hm2, hle⟩ := ih hmem
        rw [hxs] at hm2
        cases Option.some.inj hm2
        exact ⟨min x m, by simp [listMin, hxs],
          le_trans (min_le_right x m) hle⟩

/-- The maximum of a rational list bounds every member from above. -/
theorem listMax_ge_of_mem {l : List ℚ} {a : ℚ} (h : a ∈ l) :
    ∃ M, listMax l = some M ∧ a ≤ M := by
  induction l with
  | nil => cases h
  | cons x xs ih =>
    cases hxs : listMax xs with
    | none =>
      rcases List.mem_cons.mp h with rfl | hmem
      · exact ⟨a, by simp [listMax, hxs], le_refl a⟩
      · obtain ⟨M, hM, _⟩ := ih hmem
        rw [hxs] at hM
        cases hM
    | some M =>
      rcases List.mem_cons.mp h with rfl | hmem
      · exact ⟨max a M, by simp [listMax, hxs], le_max_left a M⟩
      · obtain ⟨M2, hM2, hle⟩ := ih hmem
        rw [hxs] at hM2
        cases Option.some.inj hM2
        exact ⟨max x M, by simp [listMax, hxs],
          le_trans hle (le_max_right x M)⟩

/-- The minimum of a rational list is one of its members. -/
theorem listMin_mem : ∀ {l : List ℚ} {m : ℚ}, listMin l = some m → m ∈ l := by
  intro l
  induction l with
  | nil => intro m h; cases h
  | cons x xs ih =>
    intro m h
    cases hxs : listMin xs with
    | none =>
      simp only [listMin, hxs] at h
      cases Option.some.inj h
      exact List.mem_cons_self x xs
    | some m1 =>
      simp only [listMin, hxs] at h
      cases Option.some.inj h
      rcases min_cases x m1 with ⟨heq, _⟩ | ⟨heq, _⟩
      · rw [heq]; exact List.mem_cons_self x xs
      · rw [heq]; exact List.mem_cons_of_mem x (ih hxs)

/-- The minimum of a list never exceeds its maximum. -/
theorem listMin_le_listMax {l : List ℚ} {m M : ℚ}
    (h1 : listMin l = some m) (h2 : listMax l = some M) : m ≤ M := by
  obtain ⟨M2, hM2, hle⟩ := listMax_ge_of_mem (listMin_mem h1)
  rw [h2] at hM2
  cases Option.some.inj hM2
  exact hle

/-- If the fitted bounds of a `LogNorm` are finite with a non-positive
lower bound strictly below the upper bound, calling it raises
`"Invalid vmin or vmax"` (the log transform of `vmin` is not finite). -/
theorem classify_eq_err {n : LogNorm} {m M : ℚ}
    (h1 : n.vmin = some m) (h2 : n.vmax = some M)
    (hm : m ≤ 0) (hlt : m < M) :
    n.classify = .err "Invalid vmin or vmax" := by
  unfold LogNorm.classify
  rw [h1, h2]
  show (if M < m then NormResult.err "vmin must be less or equal to vmax"
    else if m = M then NormResult.zero
    else if m ≤ 0 ∨ M ≤ 0 then NormResult.err "Invalid vmin or vmax"
    else NormResult.logPos) = NormResult.err "Invalid vmin or vmax"
  rw [if_neg (not_lt.mpr (le_of_lt hlt)), if_neg (ne_of_lt hlt),
    if_pos (Or.inl hm)]

set_option maxRecDepth 8000 in
/-- No entry of the `RdYlGn` lookup table rounds to the neutral colour
`#cccccc`: its blue channel never exceeds byte 191. -/
theorem lutColor_ne_neutral : ∀ k : Fin 256, lutColor k.val ≠ neutralColor := by
  decide

/-- Example session state: authenticated, centred at `(1, 2)`, zoom 18 —
a state reached after selecting a parcel. -/
def exState : SessionState :=
  { password_correct := some true, map_center := some (1, 2),
    map_zoom := some 18 }

/-- Example session state already centred on `exRecord`'s centroid. -/
def exStateAtCentroid : SessionState :=
  { password_correct := some true, map_center := some (5, 7),
    map_zoom := some 13 }

/-- Example fresh session state: authenticated, no map keys yet. -/
def exFreshState : SessionState :=
  { password_correct := some true, map_center := none, map_zoom := none }

/-- Example parcel record with centroid `(5, 7)`. -/
def exRecord : ParcelRecord :=
  { parcel_id := 0, variance_acres := some 1, centroid_y := 5,
    centroid_x := 7, geometry := [(0, 0), (10, 0), (10, 14), (0, 14)] }

/-- Example one-record dataset. -/
def exDataset : List ParcelRecord := [exRecord]

/-- Example frame already in the canonical CRS. -/
def exFrame4326 : RawGeoDataFrame := { crs := "EPSG:4326", records := exDataset }

/-- Example `variance_acres` column holding a negative value, a NaN and a
positive value. -/
def exMixedColumn : List Val := [some (-1), none, some 5]

/-- Example column whose values are all equal and positive. -/
def exEqualColumn : List Val := [some 2, some 2]

/-- Example column whose values are all equal to `-1`. -/
def exAllNegColumn : List Val := [some (-1), some (-1)]

/-- Example 17-row `variance_acres` column: sixteen tied records followed
by one larger value — large enough for the quicksort partition to run. -/
def exTieColumn : List Val := List.replicate 16 (some 0) ++ [some 9]

/-- The records carrying `exTieColumn`, identified by `parcel_id`. -/
def exTieRecords : List ParcelRecord :=
  (List.range 17).map (fun i =>
    { parcel_id := i, variance_acres := exTieColumn.getD i none,
      centroid_y := 0, centroid_x := 0, geometry := [] })

/-! ### Claim theorems -/

/-- C1: for every loaded dataset and every selection event reporting a
valid row `i`, if the centroid of record `i` equals the current map
centre component-wise, the session state is unchanged and no rerun is
triggered; if it differs in any component, the centre becomes that
centroid, the zoom becomes the detail level 18, and a rerun fires. -/
theorem c1_selection_reconciliation (gdf : List ParcelRecord)
    (s : SessionState) (i : ℕ) (p : ParcelRecord) (c : ℚ × ℚ)
    (hp : gdf[i]? = some p) (hc : s.map_center = some c) :
    (c = (p.centroid_y, p.centroid_x) →
      selectionStep gdf s i = .ok (s, false)) ∧
    (c ≠ (p.centroid_y, p.centroid_x) →
      selectionStep gdf s i =
        .ok ({ s with map_center := some (p.centroid_y, p.centroid_x),
                      map_zoom := some 18 }, true)) := by
  constructor
  · intro hEq
    simp [selectionStep, hp, hc, hEq]
  · intro hNe
    simp [selectionStep, hp, hc, hNe]

/-- Witness for C1: on `exDataset`, selecting row 0 from a state already
centred at its centroid `(5, 7)` changes nothing, while selecting it from
a state centred at `(1, 2)` recentres to `(5, 7)` at zoom 18. -/
theorem c1_selection_reconciliation_witness :
    selectionStep exDataset exStateAtCentroid 0 =
      .ok (exStateAtCentroid, false) ∧
    selectionStep exDataset exState 0 =
      .ok ({ exState with map_center := some (5, 7),
                          map_zoom := some 18 }, true) := by
  have h1 := c1_selection_reconciliation exDataset exStateAtCentroid 0
    exRecord (5, 7) rfl rfl
  have h2 := c1_selection_reconciliation exDataset exState 0
    exRecord (1, 2) rfl rfl
  exact ⟨h1.1 rfl, h2.2 (by decide)⟩

/-- C2 code evidence: line 109 computes `min`/`max` of `variance_acres`
with plain pandas `min()`/`max()`, which skip NaN but keep non-positive
values, so on a column holding `-1`, NaN and `5` the computed `min_value`
is `-1`, while the spec's positive-only rule would give `5` for both
bounds; the two disagree. -/
theorem c2_min_includes_nonpositive :
    seriesMin exMixedColumn = some (-1) ∧
    seriesMax exMixedColumn = some 5 ∧
    specLogMin exMixedColumn = some 5 ∧
    specLogMax exMixedColumn = some 5 ∧
    seriesMin exMixedColumn ≠ specLogMin exMixedColumn := by decide

/-- C3 counterexample: logging out from a session centred at `(1, 2)` at
zoom 18 keeps both keys, and the next render pass (the line 85 guard)
does not reinitialise them, so the centre is not the dataset centroid
`(5, 7)` and the zoom is not the default 13. -/
theorem c3_counterexample :
    (logoutStep exState).map_center = some (1, 2) ∧
    (logoutStep exState).map_zoom = some 18 ∧
    initMapState exDataset (logoutStep exState) = logoutStep exState ∧
    (initMapState exDataset (logoutStep exState)).map_center ≠ some (5, 7) ∧
    (initMapState exDataset (logoutStep exState)).map_zoom ≠ some 13 := by
  decide

/-- C3 amended: logout only resets the authentication flag; `map_center`
and `map_zoom` survive in the session state, and because the key is still
present the next render pass leaves them untouched instead of
reinitialising from the freshly loaded dataset. -/
theorem c3_amended_logout_keeps_view (s : SessionState) :
    (logoutStep s).password_correct = some false ∧
    (logoutStep s).map_center = s.map_center ∧
    (logoutStep s).map_zoom = s.map_zoom ∧
    (s.map_center.isSome = true →
      ∀ gdf, initMapState gdf (logoutStep s) = logoutStep s) := by
  refine ⟨rfl, rfl, rfl, ?_⟩
  intro hs gdf
  cases hc : s.map_center with
  | none => rw [hc] at hs; cases hs
  | some c => simp [initMapState, logoutStep, hc]

/-- Witness for the amended C3 at the concrete state `exState`. -/
theorem c3_amended_logout_keeps_view_witness :
    (logoutStep exState).password_correct = some false ∧
    (logoutStep exState).map_center = exState.map_center ∧
    (logoutStep exState).map_zoom = exState.map_zoom ∧
    initMapState exDataset (logoutStep exState) = logoutStep exState := by
  have h := c3_amended_logout_keeps_view exState
  exact ⟨h.1, h.2.1, h.2.2.1, h.2.2.2 rfl exDataset⟩

/-- C4: in logarithmic mode every non-positive or NaN value gets the
fixed neutral colour `#cccccc` whatever the fitted bounds are, and no
output of the gradient path (any LUT entry, hence any colour `get_color`
returns for a positive value) equals that neutral colour. -/
theorem c4_neutral_for_invalid (idx : ℚ → Fin 256) (n : LogNorm) (v : Val)
    (h : v = none ∨ ∃ q, v = some q ∧ q ≤ 0) :
    get_color idx n v = .ok neutralColor ∧
    (∀ q c, 0 < q → get_color idx n (some q) = .ok c →
      c ≠ neutralColor) := by
  constructor
  · rcases h with rfl | ⟨q, rfl, hle⟩
    · rfl
    · simp [get_color, hle]
  · intro q c hq hc
    simp only [get_color, not_le.mpr hq, if_false] at hc
    cases hcl : n.classify with
    | err m => rw [hcl] at hc; cases hc
    | zero =>
      rw [hcl] at hc
      cases Except.ok.inj hc
      exact lutColor_ne_neutral ⟨0, by decide⟩
    | logPos =>
      rw [hcl] at hc
      cases Except.ok.inj hc
      exact lutColor_ne_neutral (idx q)

/-- Witness for C4 at the value `-1` under the bounds fitted on
`exMixedColumn`. -/
theorem c4_neutral_for_invalid_witness :
    get_color idx0 (fittedNorm exMixedColumn) (some (-1)) =
      .ok neutralColor ∧
    (∀ q c, 0 < q →
      get_color idx0 (fittedNorm exMixedColumn) (some q) = .ok c →
      c ≠ neutralColor) :=
  c4_neutral_for_invalid idx0 (fittedNorm exMixedColumn) (some (-1))
    (Or.inr ⟨-1, rfl, by decide⟩)

/-- C5 counterexample: on the all-equal positive column `[2, 2]` the call
never raises, but the colour returned for the value 2 is the LUT entry at
position 0 (the `vmin == vmax` short circuit of `LogNorm` returns 0.0),
not the colour at the midpoint position 0.5. -/
theorem c5_counterexample :
    seriesMin exEqualColumn = some 2 ∧
    seriesMax exEqualColumn = some 2 ∧
    get_color idx0 (fittedNorm exEqualColumn) (some 2) =
      .ok (lutColor 0) ∧
    get_color idx0 (fittedNorm exEqualColumn) (some 2) ≠
      .ok (colormapAt (1 / 2)) := by
  have hidx : colormapIndex (1 / 2) = 128 := by
    unfold colormapIndex
    rw [if_neg (by norm_num : ¬((1 : ℚ) / 2 < 0))]
    norm_num
    decide
  refine ⟨by decide, by decide, by decide, ?_⟩
  rw [colormapAt, hidx]
  decide

/-- C5 amended: on a degenerate dataset (`min_value == max_value`, all
positive) `get_color` never raises; every positive value maps to the
gradient's low-end colour (position 0, not the midpoint 0.5), and
non-positive or NaN values map to the neutral colour. -/
theorem c5_amended_degenerate_low_end (idx : ℚ → Fin 256)
    (column : List Val) (a : ℚ) (v : Val)
    (hmin : seriesMin column = some a) (hmax : seriesMax column = some a)
    (ha : 0 < a) :
    (∃ c, get_color idx (fittedNorm column) v = .ok c) ∧
    (∀ q, v = some q → 0 < q →
      get_color idx (fittedNorm column) v = .ok (lutColor 0)) ∧
    (∀ q, v = some q → q ≤ 0 →
      get_color idx (fittedNorm column) v = .ok neutralColor) ∧
    (v = none → get_color idx (fittedNorm column) v = .ok neutralColor) := by
  have hcl : (fittedNorm column).classify = .zero := by
    unfold LogNorm.classify
    have h1 : (fittedNorm column).vmin = some a := hmin
    have h2 : (fittedNorm column).vmax = some a := hmax
    rw [h1, h2]
    show (if a < a then NormResult.err "vmin must be less or equal to vmax"
      else if a = a then NormResult.zero
      else if a ≤ 0 ∨ a ≤ 0 then NormResult.err "Invalid vmin or vmax"
      else NormResult.logPos) = NormResult.zero
    rw [if_neg (lt_irrefl a), if_pos rfl]
  refine ⟨?_, ?_, ?_, ?_⟩
  · cases v with
    | none => exact ⟨neutralColor, rfl⟩
    | some q =>
      by_cases hq : q ≤ 0
      · exact ⟨neutralColor, by simp [get_color, hq]⟩
      · exact ⟨lutColor 0, by simp [get_color, hq, hcl]⟩
  · rintro q rfl hq
    simp [get_color, not_le.mpr hq, hcl]
  · rintro q rfl hq
    simp [get_color, hq]
  · rintro rfl
    rfl

/-- Witness for the amended C5 on `exEqualColumn` at the value 2. -/
theorem c5_amended_degenerate_low_end_witness :
    (∃ c, get_color idx0 (fittedNorm exEqualColumn) (some 2) = .ok c) ∧
    (∀ q, (some 2 : Val) = some q → 0 < q →
      get_color idx0 (fittedNorm exEqualColumn) (some 2) =
        .ok (lutColor 0)) ∧
    (∀ q, (some 2 : Val) = some q → q ≤ 0 →
      get_color idx0 (fittedNorm exEqualColumn) (some 2) =
        .ok neutralColor) ∧
    ((some 2 : Val) = none →
      get_color idx0 (fittedNorm exEqualColumn) (some 2) =
        .ok neutralColor) :=
  c5_amended_degenerate_low_end idx0 exEqualColumn 2 (some 2)
    (by decide) (by decide) (by decide)

/-- C6 counterexample: the folium map built by `main_app` holds two
polygon layers, not one, and the first one's fill rule is not
`get_color` — at the value 0 it yields a raw rgba tuple while
`get_color` yields the neutral hex colour. -/
theorem c6_counterexample :
    (mainAppPolygonLayers idx0 (fittedNorm exEqualColumn)).length ≠ 1 ∧
    ((mainAppPolygonLayers idx0 (fittedNorm exEqualColumn)).getD 0
        default).fillColorOf (some 0) ≠
      layer2FillColor idx0 (fittedNorm exEqualColumn) (some 0) := by
  decide

/-- C6 amended: the map contains exactly two polygon layers over the same
features; the second is styled by `get_color(variance_acres)` per
feature, the first by the colormap applied directly to the raw attribute
value, and the two rules disagree (shown at the value 0). -/
theorem c6_amended_two_layers (idx : ℚ → Fin 256) (n : LogNorm) :
    (mainAppPolygonLayers idx n).length = 2 ∧
    (∀ v, ((mainAppPolygonLayers idx n).getD 1 default).fillColorOf v =
      layer2FillColor idx n v) ∧
    (∀ v, ((mainAppPolygonLayers idx n).getD 0 default).fillColorOf v =
      layer1FillColor v) ∧
    ((mainAppPolygonLayers idx n).getD 0 default).fillColorOf (some 0) ≠
      layer2FillColor idx n (some 0) := by
  refine ⟨rfl, fun v => rfl, fun v => rfl, ?_⟩
  have h2 : layer2FillColor idx n (some 0) = .hexColor neutralColor := rfl
  rw [h2]
  show layer1FillColor (some 0) ≠ FillValue.hexColor neutralColor
  decide

/-- C7 code evidence: on seventeen records — sixteen tied at variance 0
followed by one at 9 — the indexer `sort_values(ascending=False)`
produces with numpy's default quicksort scrambles the tied block: the
tied records come out in the order 9, 15, 14, …, 0, …, 8, so record 9
precedes record 0 although both tie and 0 precedes 9 in parse order;
a stable sort would have kept 0, 1, 2, …, 15. -/
theorem c7_quicksort_not_stable :
    nargsortDesc exTieColumn =
      [16, 9, 15, 14, 13, 12, 11, 10, 0, 1, 7, 6, 5, 4, 3, 2, 8] ∧
    exTieColumn.getD 0 none = exTieColumn.getD 9 none ∧
    (nargsortDesc exTieColumn).indexOf 9 <
      (nargsortDesc exTieColumn).indexOf 0 ∧
    (sortByVarianceDesc exTieRecords).map (fun p => p.parcel_id) =
      [16, 9, 15, 14, 13, 12, 11, 10, 0, 1, 7, 6, 5, 4, 3, 2, 8] := by
  decide

/-- C8: on a session without a `map_center` key, the render pass creates
the view state with centre equal to the equal-weight mean of the parcel
centroid latitudes and longitudes and zoom 13, touching nothing else. -/
theorem c8_init_view_state (gdf : List ParcelRecord) (s : SessionState)
    (habs : s.map_center = none) (hne : gdf ≠ []) :
    (initMapState gdf s).map_center =
      some ((gdf.map (fun p => p.centroid_y)).sum / (gdf.length : ℚ),
            (gdf.map (fun p => p.centroid_x)).sum / (gdf.length : ℚ)) ∧
    (initMapState gdf s).map_zoom = some 13 ∧
    (initMapState gdf s).password_correct = s.password_correct := by
  simp [initMapState, habs, seriesMean]

/-- Witness for C8 on the one-record dataset `exDataset` from a fresh
session state. -/
theorem c8_init_view_state_witness :
    (initMapState exDataset exFreshState).map_center =
      some ((exDataset.map (fun p => p.centroid_y)).sum /
              (exDataset.length : ℚ),
            (exDataset.map (fun p => p.centroid_x)).sum /
              (exDataset.length : ℚ)) ∧
    (initMapState exDataset exFreshState).map_zoom = some 13 ∧
    (initMapState exDataset exFreshState).password_correct =
      exFreshState.password_correct :=
  c8_init_view_state exDataset exFreshState rfl (by decide)

/-- C9: when the parsed CRS is already `EPSG:4326`, the reprojection
step of `load_data` returns the frame unchanged — in particular every
geometry is exactly unchanged — whatever transform `to_crs` would have
applied. -/
theorem c9_reproject_noop (toWgs84 : ParcelRecord → ParcelRecord)
    (gdf : RawGeoDataFrame) (h : gdf.crs = "EPSG:4326") :
    reprojectStep toWgs84 gdf = gdf ∧
    (reprojectStep toWgs84 gdf).records.map (fun p => p.geometry) =
      gdf.records.map (fun p => p.geometry) := by
  have he : reprojectStep toWgs84 gdf = gdf := by
    simp [reprojectStep, h]
  exact ⟨he, by rw [he]⟩

/-- Witness for C9 on the concrete frame `exFrame4326` with the identity
as the would-be transform. -/
theorem c9_reproject_noop_witness :
    reprojectStep id exFrame4326 = exFrame4326 ∧
    (reprojectStep id exFrame4326).records.map (fun p => p.geometry) =
      exFrame4326.records.map (fun p => p.geometry) :=
  c9_reproject_noop id exFrame4326 rfl

/-- C10 counterexample: the column `[-1, -1]` contains a finite
non-positive value, yet `get_color` on the positive value 2 returns a
gradient colour instead of raising — `vmin == vmax` short-circuits
`LogNorm` to position 0 before the log-domain check. -/
theorem c10_counterexample :
    some (-1 : ℚ) ∈ exAllNegColumn ∧
    (-1 : ℚ) ≤ 0 ∧
    get_color idx0 (fittedNorm exAllNegColumn) (some 2) =
      .ok (lutColor 0) := by decide

/-- C10 amended: if the column contains a finite non-positive value then
the fitted lower bound is non-positive, and provided the fitted bounds
differ, `get_color` raises `"Invalid vmin or vmax"` on every positive
value, while NaN and non-positive values still get the neutral colour. -/
theorem c10_amended_raises_when_spread (idx : ℚ → Fin 256)
    (column : List Val) (a : ℚ)
    (hmem : some a ∈ column) (ha : a ≤ 0)
    (hne : seriesMin column ≠ seriesMax column) :
    (∃ m, seriesMin column = some m ∧ m ≤ 0) ∧
    (∀ q, 0 < q →
      get_color idx (fittedNorm column) (some q) =
        .error "Invalid vmin or vmax") ∧
    get_color idx (fittedNorm column) none = .ok neutralColor ∧
    (∀ q, q ≤ 0 →
      get_color idx (fittedNorm column) (some q) = .ok neutralColor) := by
  have hmem2 : a ∈ column.filterMap id :=
    List.mem_filterMap.mpr ⟨some a, hmem, rfl⟩
  obtain ⟨m, hm, hma⟩ := listMin_le_of_mem hmem2
  obtain ⟨M, hM, _⟩ := listMax_ge_of_mem hmem2
  have hmin : seriesMin column = some m := hm
  have hmax : seriesMax column = some M := hM
  have hm0 : m ≤ 0 := le_trans hma ha
  have hlt : m < M := lt_of_le_of_ne (listMin_le_listMax hm hM)
    (fun e => hne (by rw [hmin, hmax, e]))
  have hcl : (fittedNorm column).classify = .err "Invalid vmin or vmax" :=
    classify_eq_err hmin hmax hm0 hlt
  refine ⟨⟨m, hmin, hm0⟩, ?_, rfl, ?_⟩
  · intro q hq
    simp [get_color, not_le.mpr hq, hcl]
  · intro q hq
    simp [get_color, hq]

/-- Witness for the amended C10 on `exMixedColumn` (min `-1`, max `5`). -/
theorem c10_amended_raises_when_spread_witness :
    (∃ m, seriesMin exMixedColumn = some m ∧ m ≤ 0) ∧
    (∀ q, 0 < q →
      get_color idx0 (fittedNorm exMixedColumn) (some q) =
        .error "Invalid vmin or vmax") ∧
    get_color idx0 (fittedNorm exMixedColumn) none = .ok neutralColor ∧
    (∀ q, q ≤ 0 →
      get_color idx0 (fittedNorm exMixedColumn) (some q) =
        .ok neutralColor) :=
  c10_amended_raises_when_spread idx0 exMixedColumn (-1)
    (by decide) (by decide) (by decide)

end ParcelApp
